import Mathlib

/-!
Shallow embedding of the watertap-reflo orchestration scripts.

The definitions below are translated from the repository sources:

* `analysis/case_studies/KBHDP/main.py` — flowsheet assembly, sequential
  unit setup (`init_system`), the solve driver (`solve`), and the
  operating-condition setter (`set_inlet_conditions`).
* `solar_models/surrogate/trough/trough_surrogate.py` — the trough
  surrogate unit's local setup routine (`initialize_build`).
* `analysis/case_studies/permian/data/pysam_run_permian_trough.py` —
  `load_config`, `run_model`, and the parametric-sweep driver.
* `costing/solar/wind.py` — `cost_wind` and its parameter block.

External-library effects (the nonlinear solver, PySAM's simulation, file
reads) are abstracted as explicit inputs; control flow, arithmetic and
the order of side effects follow the Python sources line by line.
-/

namespace KBHDP

/-- Process units of the KBHDP flowsheet built in `build_system`
(`main.py`, lines 101-158): feed, primary pump, softener, the
MCAS-to-NaCl translator, UF, RO, product and disposal. -/
inductive FlowUnit where
  | feed
  | primaryPump
  | softener
  | translator
  | uf
  | ro
  | product
  | disposal
deriving DecidableEq, Repr, Fintype

/-- Named arcs declared in `add_connections` (`main.py`, lines 161-197). -/
inductive ArcName where
  | feedToPrimaryPump
  | primaryPumpToSoftener
  | softenerToTranslator
  | translatorToUF
  | ufToRoFeed
  | roToProduct
  | roToDisposal
deriving DecidableEq, Repr, Fintype

/-- Source unit of each arc, from `add_connections`. -/
def arcSource : ArcName → FlowUnit
  | .feedToPrimaryPump => .feed
  | .primaryPumpToSoftener => .primaryPump
  | .softenerToTranslator => .softener
  | .translatorToUF => .translator
  | .ufToRoFeed => .uf
  | .roToProduct => .ro
  | .roToDisposal => .ro

/-- Destination unit of each arc (the unit whose inlet receives the
propagated state), from `add_connections`. -/
def arcDest : ArcName → FlowUnit
  | .feedToPrimaryPump => .primaryPump
  | .primaryPumpToSoftener => .softener
  | .softenerToTranslator => .translator
  | .translatorToUF => .uf
  | .ufToRoFeed => .ro
  | .roToProduct => .product
  | .roToDisposal => .disposal

/-- Side-effecting statements executed by `init_system`
(`main.py`, lines 412-442): printing the degree-of-freedom count,
propagating an arc's state (the `propagate_state` wrapper, a pure copy
performed by the external helper), reporting feed concentrations,
running one unit's local setup routine, and the final
degrees-of-freedom assertion. -/
inductive Step where
  | reportDof
  | propagate (a : ArcName)
  | initUnit (u : FlowUnit)
  | reportConc
  | checkDof
deriving DecidableEq, Repr

/-- Statement sequence of `init_system` (`main.py`, lines 412-442),
in source order. -/
def init_system_steps : List Step :=
  [ .reportDof,
    .initUnit .feed,
    .propagate .feedToPrimaryPump,
    .reportConc,
    .initUnit .primaryPump,
    .propagate .primaryPumpToSoftener,
    .initUnit .softener,
    .propagate .softenerToTranslator,
    .initUnit .translator,
    .propagate .translatorToUF,
    .initUnit .uf,
    .propagate .ufToRoFeed,
    .initUnit .ro,
    .propagate .roToProduct,
    .propagate .roToDisposal,
    .initUnit .product,
    .initUnit .disposal,
    .checkDof ]

/-- Position of a statement within `init_system`. -/
def stepIdx (s : Step) : Nat := init_system_steps.indexOf s

/-- Modelled from the spec: the external helper
`assert_no_degrees_of_freedom` (imported from
`watertap.core.util.initialization`, not part of this repository's
sources) raises when the model's degrees of freedom are nonzero and
returns normally when they are zero.  `none` means the assertion
passed; `some msg` means it raised. -/
def assert_no_dof (dof : ℤ) : Option String :=
  if dof = 0 then none else some "Degrees of freedom were not 0"

/-- Outcome of running a sequence of statements that may raise: the
events that actually executed, and `some msg` when an exception
propagated out. -/
structure RunTrace where
  events : List Step
  failed : Option String
deriving DecidableEq, Repr

/-- Execution of `init_system` (`main.py`, lines 412-442),
parameterized by the degrees of freedom `dof` that the assembled model
reports after setup.  All propagate/init statements run first (their
solver calls are assumed to succeed here; a local failure is modelled
separately for the trough unit), then `assert_no_degrees_of_freedom`
runs as the final statement. -/
def init_system_run (dof : ℤ) : RunTrace :=
  { events := init_system_steps, failed := assert_no_dof dof }

/-- Termination status returned by the external nonlinear solver; only
optimality matters to the drivers (`check_optimal_termination`). -/
structure SolverResult where
  optimal : Bool
deriving DecidableEq, Repr

/-- Diagnostics printed by `solve` on failure (`main.py`, lines
461-462): `print_infeasible_bounds` and `print_close_to_bounds`. -/
inductive Diagnostic where
  | infeasibleBounds
  | closeToBounds
deriving DecidableEq, Repr

/-- Observable outcome of one call to the `solve` driver: how many
times the external solver was invoked, which diagnostics were printed,
and the returned result or raised error. -/
structure SolveOutcome where
  solverCalls : Nat
  printed : List Diagnostic
  result : Except String SolverResult
deriving Repr

/-- Message raised by `solve` on infeasibility (`main.py`, lines
457-459). -/
def infeasibleMsg : String :=
  "The current configuration is infeasible. Please adjust the decision variables."

/-- The solve driver (`main.py`, lines 445-469): one call to
`solver.solve`; on optimal termination return the results; otherwise,
if `raise_on_failure`, print the two infeasibility diagnostics and
raise `RuntimeError`; if not, return the non-optimal results. -/
def solve (res : SolverResult) (raise_on_failure : Bool) : SolveOutcome :=
  if res.optimal then
    { solverCalls := 1, printed := [], result := .ok res }
  else if raise_on_failure then
    { solverCalls := 1
      printed := [.infeasibleBounds, .closeToBounds]
      result := .error infeasibleMsg }
  else
    { solverCalls := 1, printed := [], result := .ok res }

/-- Top-level events of `main` (`main.py`, lines 79-98): the build /
connect / constrain / set-conditions calls, each `init_system`
statement, the single global solver invocation inside `solve`, and the
final flow-table report. -/
inductive MainEvent where
  | buildSystem
  | addConnections
  | addConstraints
  | setOperatingConditions
  | initStep (s : Step)
  | solveCall
  | reportFlows
deriving DecidableEq, Repr

/-- Observable outcome of one run of `main`. -/
structure MainTrace where
  events : List MainEvent
  failed : Option String
deriving DecidableEq, Repr

/-- Execution of `main` (`main.py`, lines 79-98): build, connect,
constrain, set conditions, run `init_system`, then call `solve` (with
its default `raise_on_failure = True`) and report.  `dof` is the
degrees of freedom of the assembled model after setup; `res` is the
termination status the external solver would report for the global
solve. -/
def main_run (dof : ℤ) (res : SolverResult) : MainTrace :=
  let pre : List MainEvent :=
    [.buildSystem, .addConnections, .addConstraints, .setOperatingConditions]
  let initTrace := init_system_run dof
  let initEvents := initTrace.events.map MainEvent.initStep
  match initTrace.failed with
  | some e => { events := pre ++ initEvents, failed := some e }
  | none =>
    let s := solve res true
    match s.result with
    | .ok _ =>
      { events := pre ++ initEvents ++ [.solveCall, .reportFlows], failed := none }
    | .error e =>
      { events := pre ++ initEvents ++ [.solveCall], failed := some e }

/-- Inlet concentration table of `set_inlet_conditions`
(`main.py`, lines 287-297), in kg/m3 as exact rationals. -/
def inlet_dict : List (String × ℚ) :=
  [ ("Ca_2+", 13/100),
    ("Mg_2+", 3/100),
    ("Alkalinity_2-", 8/100),
    ("SiO2", 31/1000),
    ("Cl_-", 118/100),
    ("Na_+", 77/100),
    ("K_+", 16/1000),
    ("SO2_-4+", 23/100) ]

/-- Mutable state touched by `set_inlet_conditions`: the fixed
`flow_mass_phase_comp` values (kg/s, keyed by component) and the
default-scaling-factor table of the MCAS property package (keyed by
component, for `flow_mass_phase_comp`). -/
structure InletState where
  flow : String → Option ℚ
  scaling : String → Option ℚ

/-- Body of the solute loop in `set_inlet_conditions` (`main.py`,
lines 299-314): one iteration fixes the solute's mass flow to
(H2O mass flow / 1000 kg/m3) * concentration and, in the same
iteration, sets the solute's default scaling factor to 1 divided by
that fixed value. -/
def set_inlet_step (qin : ℚ) (st : InletState) (p : String × ℚ) : InletState :=
  let f := qin / 1000 * p.2
  { flow := fun s => if s = p.1 then some f else st.flow s
    scaling := fun s => if s = p.1 then some (1 / f) else st.scaling s }

/-- `set_inlet_conditions` (`main.py`, lines 269-379) restricted to its
state effects on flows and scaling factors: fix the H2O mass flow to
`qin`, loop over `inlet_dict` fixing each solute flow and scaling
factor, then set the H2O scaling factor to `1 / qin`.  (Pressure,
temperature and pump fixings are not needed by any claim and are
omitted.) -/
def set_inlet_conditions (qin : ℚ) : InletState :=
  let st0 : InletState :=
    { flow := fun s => if s = "H2O" then some qin else none
      scaling := fun _ => none }
  let st1 := inlet_dict.foldl (set_inlet_step qin) st0
  { st1 with
    scaling := fun s => if s = "H2O" then some (1 / qin) else st1.scaling s }

/-- Feed TDS as reported by `report_MCAS_stream_conc` (`main.py`,
lines 382-389): the sum over the solute set of the per-component feed
concentrations.  With the fixed flows of `set_inlet_conditions`, each
concentration is the fixed mass flow divided by the volumetric flow
`qin / 1000` implied by the same 1000 kg/m3 density assumption. -/
def report_TDS (qin : ℚ) : ℚ :=
  (inlet_dict.map
    (fun p => (((set_inlet_conditions qin).flow p.1).getD 0) / (qin / 1000))).sum

end KBHDP

namespace Trough

/-- Termination status of a solver call, as tested by
`check_optimal_termination`. -/
structure SolverResult where
  optimal : Bool
deriving DecidableEq, Repr

/-- Surrogate-related state of the trough unit set by its local setup
routine (`trough_surrogate.py`): the two design inputs, the scaled
surrogate outputs, and the instantaneous rate variables. -/
structure TroughState where
  heat_load : ℚ
  hours_storage : ℚ
  heat_annual_scaled : ℚ
  electricity_annual_scaled : ℚ
  heat : ℚ
  electricity : ℚ
deriving Repr

/-- Observable outcome of the trough unit's local setup: how many
times the local solver ran and whether an `InitializationError` was
raised (`.error msg`) or the routine returned (`.ok`). -/
structure InitTrace where
  solverCalls : Nat
  outcome : Except String Unit
deriving Repr

/-- `initialize_build` of the trough surrogate unit
(`trough_surrogate.py`, lines 152-197): evaluate the fitted surrogate
at the current (heat_load, hours_storage) point, store the scaled
outputs, set the rate variables to annual / 8766, solve the unit once,
and raise `InitializationError` naming the unit when the solve is not
optimal.  The surrogate is an opaque function `(heat_load,
hours_storage) to (heat_annual_scaled, electricity_annual_scaled)`;
`heat_annual_scaling` and `electricity_annual_scaling` are the fixed
scaling divisors of the `heat_annual` / `electricity_annual`
expressions (lines 71-79); `res` is the termination status the local
solver reports. -/
def init_build (name : String) (surrogate : ℚ × ℚ → ℚ × ℚ)
    (heat_annual_scaling electricity_annual_scaling : ℚ)
    (st : TroughState) (res : SolverResult) : InitTrace × TroughState :=
  let out := surrogate (st.heat_load, st.hours_storage)
  let st1 : TroughState :=
    { st with
      heat_annual_scaled := out.1
      electricity_annual_scaled := out.2
      heat := out.1 / heat_annual_scaling / 8766
      electricity := out.2 / electricity_annual_scaling / 8766 }
  if res.optimal then
    (⟨1, .ok ()⟩, st1)
  else
    (⟨1, .error ("Unit model " ++ name ++ " failed to initialize")⟩, st1)

end Trough

namespace Permian

/-- Configuration data loaded from one JSON file or supplied dict: a
list of key/value pairs. -/
abbrev Config := List (String × ℚ)

/-- View of one PySAM module for `load_config`: `modules[i].value(k, v)`
succeeds exactly on the keys the module recognizes (any other key makes
it throw, which the bare `except` turns into a skip). -/
structure PySAMModule where
  recognized : String → Bool

/-- Inner key loop of `load_config` (`pysam_run_permian_trough.py`,
lines 54-60): every key other than `number_inputs` is passed to
`modules[i].value`; keys the module does not recognize are appended to
the `missing_values` list and skipped.  Returns the collected
`missing_values`; no key ever raises out of the loop. -/
def apply_config (m : PySAMModule) (data : Config) : List String :=
  data.foldl
    (fun missing kv =>
      if kv.1 = "number_inputs" then missing
      else if m.recognized kv.1 then missing
      else missing ++ [kv.1])
    []

/-- `load_config` (`pysam_run_permian_trough.py`, lines 34-61): loop
over the modules; per iteration, take the data from `file_names` when
given (after asserting the lengths match), else from `module_data`
(same assertion), else raise.  The per-iteration checks are constant
across iterations, so the loop is equivalent to one up-front dispatch
when the module list is nonempty; an empty module list performs zero
iterations and returns without any check.  File contents stand in for
file paths since `read_module_datafile` is a plain JSON load.  Returns
the per-module `missing_values` lists on success. -/
def load_config (modules : List PySAMModule)
    (file_names : Option (List Config)) (module_data : Option (List Config)) :
    Except String (List (List String)) :=
  match modules with
  | [] => .ok []
  | _ :: _ =>
    match file_names with
    | some fs =>
      if fs.length = modules.length then
        .ok (List.zipWith apply_config modules fs)
      else .error "AssertionError"
    | none =>
      match module_data with
      | some ds =>
        if ds.length = modules.length then
          .ok (List.zipWith apply_config modules ds)
        else .error "AssertionError"
      | none => .error "Either file_names or module_data must be assigned."

/-- Raw outputs of one `tech_model.execute()` run read by `run_model`
(`pysam_run_permian_trough.py`, lines 118-131).  The two freeze
protection channels may be NaN (modelled as `none`); the code coerces
those to 0. -/
structure TechOutputs where
  annual_energy_gross : ℚ
  field_freeze_protection : Option ℚ
  tes_freeze_protection : Option ℚ
  annual_electricity_consumption : ℚ
deriving Repr

/-- Dictionary returned by `run_model`
(`pysam_run_permian_trough.py`, lines 134-139). -/
structure RunModelResult where
  annual_energy : ℚ
  freeze_protection : ℚ
  capacity_factor : ℚ
  electrical_load : ℚ
deriving DecidableEq, Repr

/-- NaN coercion used for the freeze-protection channels
(`pysam_run_permian_trough.py`, lines 119-123): `0 if isnan(x) else x`. -/
def coerce_nan (x : Option ℚ) : ℚ := x.getD 0

/-- `run_model` (`pysam_run_permian_trough.py`, lines 103-139): set
`q_pb_design` to `heat_load` [MWt] and `tshours` to `hours_storage`,
execute the external simulation (whose outputs are the argument
`out`), coerce NaN freeze protection to 0, subtract total freeze
protection from the gross annual energy, and compute the capacity
factor as annual_energy / (q_pb_design * 1e3 * 8760) * 100 [%]. -/
def run_model (heat_load : ℚ) (out : TechOutputs) : RunModelResult :=
  let fp_field := coerce_nan out.field_freeze_protection
  let fp_tes := coerce_nan out.tes_freeze_protection
  let freeze_protection := fp_field + fp_tes
  let annual_energy := out.annual_energy_gross - freeze_protection
  let capacity_factor := annual_energy / (heat_load * 1000 * 8760) * 100
  { annual_energy := annual_energy
    freeze_protection := freeze_protection
    capacity_factor := capacity_factor
    electrical_load := out.annual_electricity_consumption }

/-- `numpy.linspace a b n`: `n` evenly spaced points from `a` to `b`
inclusive, as exact rationals. -/
def linspace (a b : ℚ) (n : ℕ) : List ℚ :=
  (List.range n).map (fun i : ℕ => a + (b - a) * i / (n - 1))

/-- Heat-load axis of the sweep (`pysam_run_permian_trough.py`, line
221): `np.linspace(1, 50, 50)` [MWt]. -/
def heat_loads : List ℚ := linspace 1 50 50

/-- Storage-hours axis of the sweep (`pysam_run_permian_trough.py`,
line 222): `np.linspace(0, 24, 25)` [hr]. -/
def hours_storages : List ℚ := linspace 0 24 25

/-- Input grid of the sweep (`pysam_run_permian_trough.py`, line 224):
`itertools.product(heat_loads, hours_storages)`, heat load varying
slowest. -/
def sweep_arguments : List (ℚ × ℚ) := heat_loads.product hours_storages

/-- Rows of the output dataset (`pysam_run_permian_trough.py`, lines
225-249): the argument DataFrame concatenated column-wise with the
`pool.starmap` results, which are returned in argument order; so row i
pairs `sweep_arguments[i]` with the evaluation at
`sweep_arguments[i]`.  The per-pair evaluation `setup_and_run` (lines
142-147) is abstracted as `f`, since each worker builds its own
isolated model. -/
def sweep_rows (f : ℚ × ℚ → RunModelResult) : List ((ℚ × ℚ) × RunModelResult) :=
  sweep_arguments.map (fun p => (p, f p))

end Permian

namespace Wind

/-- Cost parameters built by `build_wind_cost_param_block`
(`wind.py`, lines 26-77), one field per `pyo.Var`. -/
structure WindCostParams where
  cost_turbine_per_kw : ℚ
  cost_turbine_per : ℚ
  cost_balance_system_per_kw : ℚ
  contingency_frac_direct_cost : ℚ
  indirect_frac_direct_cost : ℚ
  fixed_operating_by_capacity : ℚ
  variable_operating_by_generation : ℚ
deriving DecidableEq, Repr

/-- Default parameter values (the `initialize=` arguments in
`build_wind_cost_param_block`). -/
def wind_defaults : WindCostParams :=
  { cost_turbine_per_kw := 11124/10
    cost_turbine_per := 0
    cost_balance_system_per_kw := 0
    contingency_frac_direct_cost := 0
    indirect_frac_direct_cost := 0
    fixed_operating_by_capacity := 40
    variable_operating_by_generation := 0 }

/-- Costing variables created on the unit's costing block by
`cost_wind` (`wind.py`, lines 84-113). -/
structure WindCosting where
  capital_cost : ℚ
  fixed_operating_cost : ℚ
  variable_operating_cost : ℚ
  direct_cost : ℚ
  indirect_cost : ℚ
  sales_tax : ℚ
deriving DecidableEq, Repr

/-- Expression that `cost_wind` equates the capital cost to
(`wind.py`, line 115): the literal constant 0; `pyo.units.convert` of
0 is 0. -/
def capital_cost_expr : ℚ := 0

/-- Constraints posted by `cost_wind` (`wind.py`, lines 117-132):
`capital_cost == convert(capital_cost_expr)` and
`fixed_operating_cost == fixed_operating_by_capacity * system_capacity`
with the capacity expressed in kW. -/
def cost_wind_constraints (p : WindCostParams) (system_capacity_kw : ℚ)
    (b : WindCosting) : Prop :=
  b.capital_cost = capital_cost_expr ∧
  b.fixed_operating_cost = p.fixed_operating_by_capacity * system_capacity_kw

end Wind

theorem main_run_failure (dof : ℤ) (res : KBHDP.SolverResult) (h : dof ≠ 0) :
    KBHDP.main_run dof res =
      { events :=
          [.buildSystem, .addConnections, .addConstraints, .setOperatingConditions]
            ++ KBHDP.init_system_steps.map KBHDP.MainEvent.initStep
        failed := some "Degrees of freedom were not 0" } := by
  simp [KBHDP.main_run, KBHDP.init_system_run, KBHDP.assert_no_dof, h]

/-- C1: after arc expansion, operating-condition fixing and sequential
setup, `init_system` succeeds exactly when the system's degrees of
freedom are zero; the zero-DOF condition is checked by the explicit
assertion placed as the last statement of `init_system`, before the
global solve; and a nonzero count makes `main` abort with no solver
invocation. -/
theorem claim_C1_dof_guard (dof : ℤ) (res : KBHDP.SolverResult) :
    ((KBHDP.init_system_run dof).failed = none ↔ dof = 0)
    ∧ (KBHDP.init_system_run dof).events.getLast? = some KBHDP.Step.checkDof
    ∧ (dof ≠ 0 →
        KBHDP.MainEvent.solveCall ∉ (KBHDP.main_run dof res).events ∧
          (KBHDP.main_run dof res).failed ≠ none)
    ∧ (KBHDP.MainEvent.solveCall ∈ (KBHDP.main_run dof res).events →
        (KBHDP.main_run dof res).events.indexOf
            (KBHDP.MainEvent.initStep KBHDP.Step.checkDof) <
          (KBHDP.main_run dof res).events.indexOf KBHDP.MainEvent.solveCall) := by
  rcases res with ⟨opt⟩
  by_cases h : dof = 0
  · subst h
    cases opt <;> decide
  · refine ⟨?_, rfl, ?_, ?_⟩
    · simp [KBHDP.init_system_run, KBHDP.assert_no_dof, h]
    · intro _
      rw [main_run_failure dof ⟨opt⟩ h]
      exact ⟨by decide, by decide⟩
    · intro hmem
      rw [main_run_failure dof ⟨opt⟩ h] at hmem
      exact absurd hmem (by decide)

/-- C1 witness: at degrees of freedom 4 the run aborts without calling
the solver, and at degrees of freedom 0 the assertion step precedes
the solver call. -/
theorem claim_C1_dof_guard_case :
    (KBHDP.MainEvent.solveCall ∉ (KBHDP.main_run 4 ⟨true⟩).events ∧
      (KBHDP.main_run 4 ⟨true⟩).failed ≠ none)
    ∧ ((KBHDP.main_run 0 ⟨true⟩).events.indexOf
          (KBHDP.MainEvent.initStep KBHDP.Step.checkDof) <
        (KBHDP.main_run 0 ⟨true⟩).events.indexOf KBHDP.MainEvent.solveCall) :=
  ⟨(claim_C1_dof_guard 4 ⟨true⟩).2.2.1 (by decide),
   (claim_C1_dof_guard 0 ⟨true⟩).2.2.2 (by decide)⟩

/-- C2: `init_system` runs each unit's local setup exactly once, in
the upstream-to-downstream order feed, primary pump, softener,
translator, UF, RO, product, disposal; every arc is propagated exactly
once; and each arc's propagation (into its destination unit's inlet)
occurs strictly before the destination unit's own local setup. -/
theorem claim_C2_init_sequence :
    (∀ u : KBHDP.FlowUnit,
      KBHDP.init_system_steps.count (KBHDP.Step.initUnit u) = 1)
    ∧ (∀ a : KBHDP.ArcName,
        KBHDP.init_system_steps.count (KBHDP.Step.propagate a) = 1)
    ∧ (∀ a : KBHDP.ArcName,
        KBHDP.stepIdx (KBHDP.Step.propagate a) <
          KBHDP.stepIdx (KBHDP.Step.initUnit (KBHDP.arcDest a)))
    ∧ KBHDP.stepIdx (.initUnit .feed) < KBHDP.stepIdx (.initUnit .primaryPump)
    ∧ KBHDP.stepIdx (.initUnit .primaryPump) < KBHDP.stepIdx (.initUnit .softener)
    ∧ KBHDP.stepIdx (.initUnit .softener) < KBHDP.stepIdx (.initUnit .translator)
    ∧ KBHDP.stepIdx (.initUnit .translator) < KBHDP.stepIdx (.initUnit .uf)
    ∧ KBHDP.stepIdx (.initUnit .uf) < KBHDP.stepIdx (.initUnit .ro)
    ∧ KBHDP.stepIdx (.initUnit .ro) < KBHDP.stepIdx (.initUnit .product)
    ∧ KBHDP.stepIdx (.initUnit .product) < KBHDP.stepIdx (.initUnit .disposal) := by
  decide

/-- C3: the solve driver invokes the external solver exactly once per
call; on optimal termination it returns the result; on non-optimal
termination with `raise_on_failure` it prints the two infeasibility
diagnostics and raises; on non-optimal termination without
`raise_on_failure` it returns the non-optimal result without raising
or printing. -/
theorem claim_C3_solve_driver (res : KBHDP.SolverResult) (rof : Bool) :
    (KBHDP.solve res rof).solverCalls = 1
    ∧ (res.optimal = true →
        (KBHDP.solve res rof).result = .ok res ∧
          (KBHDP.solve res rof).printed = [])
    ∧ (res.optimal = false → rof = true →
        (KBHDP.solve res rof).printed =
            [.infeasibleBounds, .closeToBounds] ∧
          (KBHDP.solve res rof).result = .error KBHDP.infeasibleMsg)
    ∧ (res.optimal = false → rof = false →
        (KBHDP.solve res rof).result = .ok res ∧
          (KBHDP.solve res rof).printed = []) := by
  rcases res with ⟨opt⟩
  cases opt <;> cases rof <;> simp [KBHDP.solve]

/-- C3 witness: concrete outcomes of the three branches of the solve
driver. -/
theorem claim_C3_solve_driver_case :
    ((KBHDP.solve ⟨true⟩ true).result = .ok ⟨true⟩ ∧
      (KBHDP.solve ⟨true⟩ true).printed = [])
    ∧ ((KBHDP.solve ⟨false⟩ true).printed =
          [.infeasibleBounds, .closeToBounds] ∧
        (KBHDP.solve ⟨false⟩ true).result = .error KBHDP.infeasibleMsg)
    ∧ ((KBHDP.solve ⟨false⟩ false).result = .ok ⟨false⟩ ∧
        (KBHDP.solve ⟨false⟩ false).printed = []) :=
  ⟨(claim_C3_solve_driver ⟨true⟩ true).2.1 rfl,
   (claim_C3_solve_driver ⟨false⟩ true).2.2.1 rfl rfl,
   (claim_C3_solve_driver ⟨false⟩ false).2.2.2 rfl rfl⟩

/-- C4: the trough surrogate's local setup routine raises an
`InitializationError` naming the unit exactly when its local solve
does not reach optimal termination, and it invokes the local solver
exactly once — no retry, fallback guess, or partial continuation. -/
theorem claim_C4_trough_init (name : String) (surrogate : ℚ × ℚ → ℚ × ℚ)
    (hsc esc : ℚ) (st : Trough.TroughState) (res : Trough.SolverResult) :
    ((Trough.init_build name surrogate hsc esc st res).1.outcome = .ok () ↔
      res.optimal = true)
    ∧ (res.optimal = false →
        (Trough.init_build name surrogate hsc esc st res).1.outcome =
          .error ("Unit model " ++ name ++ " failed to initialize"))
    ∧ (Trough.init_build name surrogate hsc esc st res).1.solverCalls = 1 := by
  rcases res with ⟨opt⟩
  cases opt <;> simp [Trough.init_build]

set_option maxHeartbeats 1000000 in
/-- C9: in `set_inlet_conditions`, every solute of the inlet table has
its mass flow fixed to (water mass flow / 1000 kg/m3) * concentration,
and in the same loop iteration its default scaling factor for
`flow_mass_phase_comp` is set to 1 divided by that fixed value. -/
theorem claim_C9_inlet_scaling (qin : ℚ) :
    ∀ p ∈ KBHDP.inlet_dict,
      (KBHDP.set_inlet_conditions qin).flow p.1 = some (qin / 1000 * p.2) ∧
        (KBHDP.set_inlet_conditions qin).scaling p.1 =
          some (1 / (qin / 1000 * p.2)) := by
  intro p hp
  simp only [KBHDP.inlet_dict, List.mem_cons, List.not_mem_nil, or_false] at hp
  rcases hp with rfl | rfl | rfl | rfl | rfl | rfl | rfl | rfl <;>
    exact ⟨by simp [KBHDP.set_inlet_conditions, KBHDP.set_inlet_step,
            KBHDP.inlet_dict],
      by simp [KBHDP.set_inlet_conditions, KBHDP.set_inlet_step,
            KBHDP.inlet_dict]⟩

/-- C9 witness: the calcium entry at 1 kg/s water flow. -/
theorem claim_C9_inlet_scaling_case :
    (KBHDP.set_inlet_conditions 1).flow "Ca_2+" = some (1 / 1000 * (13/100)) ∧
      (KBHDP.set_inlet_conditions 1).scaling "Ca_2+" =
        some (1 / (1 / 1000 * (13/100))) :=
  claim_C9_inlet_scaling 1 ("Ca_2+", 13/100) (by simp [KBHDP.inlet_dict])

set_option maxHeartbeats 1000000 in
/-- C5 counterexample: with the water flow fixed at 1 kg/s, the sum of
the per-component feed concentrations is not 2.487 kg/m3; it misses
the documented total by exactly 0.02 kg/m3, far outside floating
tolerance. -/
theorem claim_C5_tds_counterexample :
    KBHDP.report_TDS 1 ≠ 2487/1000 ∧
      |KBHDP.report_TDS 1 - 2487/1000| = 1/50 := by
  have h : KBHDP.report_TDS 1 = 2467/1000 := by
    simp [KBHDP.report_TDS, KBHDP.set_inlet_conditions, KBHDP.set_inlet_step,
      KBHDP.inlet_dict]
    norm_num
  rw [h]
  norm_num

set_option maxHeartbeats 1000000 in
/-- C5 (amended): with the water flow fixed at 1 kg/s and the inlet
concentration table of `set_inlet_conditions`, the sum of the
per-component feed concentrations equals exactly 2.467 kg/m3. -/
theorem claim_C5_feed_tds : KBHDP.report_TDS 1 = 2467/1000 := by
  simp [KBHDP.report_TDS, KBHDP.set_inlet_conditions, KBHDP.set_inlet_step,
    KBHDP.inlet_dict]
  norm_num

/-- C4 witness: a non-optimal local solve on a concrete trough state
yields the named error. -/
theorem claim_C4_trough_init_case :
    (Trough.init_build "fs.trough" (fun _ => (0, 0)) 1 1
        ⟨25, 12, 0, 0, 0, 0⟩ ⟨false⟩).1.outcome =
      .error ("Unit model " ++ "fs.trough" ++ " failed to initialize") :=
  (claim_C4_trough_init "fs.trough" (fun _ => (0, 0)) 1 1
    ⟨25, 12, 0, 0, 0, 0⟩ ⟨false⟩).2.1 rfl

theorem heat_loads_eq :
    Permian.heat_loads = (List.range 50).map (fun i : ℕ => 1 + (i : ℚ)) := by
  simp only [Permian.heat_loads, Permian.linspace]
  refine List.map_congr_left fun i _ => ?_
  push_cast
  norm_num [mul_div_assoc]

theorem hours_storages_eq :
    Permian.hours_storages = (List.range 25).map (fun i : ℕ => (i : ℚ)) := by
  simp only [Permian.hours_storages, Permian.linspace]
  refine List.map_congr_left fun i _ => ?_
  push_cast
  norm_num [mul_div_assoc]

theorem heat_loads_nodup : Permian.heat_loads.Nodup := by
  rw [heat_loads_eq]
  have hinj : Function.Injective (fun i : ℕ => 1 + (i : ℚ)) := by
    intro a b hab
    have h : (a : ℚ) = b := by simpa using hab
    exact_mod_cast h
  exact List.Nodup.map hinj (List.nodup_range 50)

theorem hours_storages_nodup : Permian.hours_storages.Nodup := by
  rw [hours_storages_eq]
  have hinj : Function.Injective (fun i : ℕ => (i : ℚ)) := by
    intro a b hab
    have h : (a : ℚ) = b := by simpa using hab
    exact_mod_cast h
  exact List.Nodup.map hinj (List.nodup_range 25)

/-- C6: the sweep grid is the Cartesian product of 50 evenly spaced
heat loads (1 to 50 MWt) and 25 evenly spaced storage hours (0 to
24 hr); it has exactly 1250 pairwise-distinct pairs, containing every
(heat_load, hours_storage) combination; and the output dataset has
exactly 1250 rows whose keys are exactly the input pairs in order, so
results stay aligned with their keys and no combination is duplicated
or missing. -/
theorem claim_C6_sweep_grid :
    Permian.heat_loads = (List.range 50).map (fun i : ℕ => 1 + (i : ℚ))
    ∧ Permian.hours_storages = (List.range 25).map (fun i : ℕ => (i : ℚ))
    ∧ Permian.heat_loads.length = 50
    ∧ Permian.hours_storages.length = 25
    ∧ Permian.sweep_arguments.length = 1250
    ∧ Permian.sweep_arguments.Nodup
    ∧ (∀ p : ℚ × ℚ, p ∈ Permian.sweep_arguments ↔
        p.1 ∈ Permian.heat_loads ∧ p.2 ∈ Permian.hours_storages)
    ∧ (∀ f : ℚ × ℚ → Permian.RunModelResult,
        (Permian.sweep_rows f).length = 1250 ∧
          (Permian.sweep_rows f).map Prod.fst = Permian.sweep_arguments) := by
  have hl : Permian.heat_loads.length = 50 := by
    rw [heat_loads_eq]
    simp
  have hs : Permian.hours_storages.length = 25 := by
    rw [hours_storages_eq]
    simp
  have hlen : Permian.sweep_arguments.length = 1250 := by
    have := List.length_product Permian.heat_loads Permian.hours_storages
    simp only [Permian.sweep_arguments]
    rw [show Permian.heat_loads.product Permian.hours_storages =
        Permian.heat_loads ×ˢ Permian.hours_storages from rfl, this, hl, hs]
  refine ⟨heat_loads_eq, hours_storages_eq, hl, hs, hlen,
    heat_loads_nodup.product hours_storages_nodup, ?_, ?_⟩
  · rintro ⟨a, b⟩
    exact List.mem_product
  · intro f
    constructor
    · simp [Permian.sweep_rows, hlen]
    · have hcomp : (Prod.fst ∘ fun p : ℚ × ℚ => (p, f p)) = fun p => p := rfl
      rw [Permian.sweep_rows, List.map_map, hcomp]
      simp

/-- C7 counterexample: at the in-range pair (25 MWt, 12 hr), external
outputs whose freeze-protection consumption exceeds the gross annual
energy make `run_model` return a negative annual energy and a negative
capacity factor — the code does not clamp its outputs to be
non-negative or within [0, 100]%. -/
theorem claim_C7_counterexample :
    (Permian.run_model 25 ⟨10, some 20, some 0, 5⟩).annual_energy < 0
    ∧ (Permian.run_model 25 ⟨10, some 20, some 0, 5⟩).capacity_factor < 0 := by
  constructor <;>
    norm_num [Permian.run_model, Permian.coerce_nan]

/-- C7 (amended): `run_model` computes the capacity factor exactly as
annual energy (gross minus NaN-coerced freeze protection) divided by
(design heat load * 1e3 * 8760), expressed in percent; and whenever
the external simulation outputs satisfy 0 <= net annual energy <=
design heat load * 1e3 * 8760 and a non-negative electricity
consumption, the returned annual energy, electrical load and capacity
factor are non-negative with the capacity factor within [0, 100]%. -/
theorem claim_C7_run_model (heat_load : ℚ) (out : Permian.TechOutputs)
    (hq : 0 < heat_load)
    (hnet : 0 ≤ (Permian.run_model heat_load out).annual_energy)
    (hcap : (Permian.run_model heat_load out).annual_energy ≤
      heat_load * 1000 * 8760)
    (helec : 0 ≤ out.annual_electricity_consumption) :
    (Permian.run_model heat_load out).capacity_factor =
        (Permian.run_model heat_load out).annual_energy /
          (heat_load * 1000 * 8760) * 100
    ∧ 0 ≤ (Permian.run_model heat_load out).annual_energy
    ∧ 0 ≤ (Permian.run_model heat_load out).electrical_load
    ∧ 0 ≤ (Permian.run_model heat_load out).capacity_factor
    ∧ (Permian.run_model heat_load out).capacity_factor ≤ 100 := by
  have hD : 0 < heat_load * 1000 * 8760 := by positivity
  refine ⟨rfl, hnet, helec, ?_, ?_⟩
  · calc (Permian.run_model heat_load out).capacity_factor
        = (Permian.run_model heat_load out).annual_energy /
            (heat_load * 1000 * 8760) * 100 := rfl
      _ ≥ 0 := mul_nonneg (div_nonneg hnet hD.le) (by norm_num)
  · have h1 : (Permian.run_model heat_load out).annual_energy /
        (heat_load * 1000 * 8760) ≤ 1 := (div_le_one hD).mpr hcap
    calc (Permian.run_model heat_load out).capacity_factor
        = (Permian.run_model heat_load out).annual_energy /
            (heat_load * 1000 * 8760) * 100 := rfl
      _ ≤ 1 * 100 := by
          exact mul_le_mul_of_nonneg_right h1 (by norm_num)
      _ = 100 := by norm_num

/-- C7 witness: a concrete in-range evaluation satisfying the output
bounds has its capacity factor within [0, 100]%. -/
theorem claim_C7_run_model_case :
    0 ≤ (Permian.run_model 25 ⟨10000, some 100, none, 5⟩).capacity_factor ∧
      (Permian.run_model 25 ⟨10000, some 100, none, 5⟩).capacity_factor ≤ 100 :=
  ⟨(claim_C7_run_model 25 ⟨10000, some 100, none, 5⟩ (by norm_num)
      (by norm_num [Permian.run_model, Permian.coerce_nan])
      (by norm_num [Permian.run_model, Permian.coerce_nan])
      (by norm_num)).2.2.2.1,
   (claim_C7_run_model 25 ⟨10000, some 100, none, 5⟩ (by norm_num)
      (by norm_num [Permian.run_model, Permian.coerce_nan])
      (by norm_num [Permian.run_model, Permian.coerce_nan])
      (by norm_num)).2.2.2.2⟩

theorem apply_config_foldl (m : Permian.PySAMModule) (data : Permian.Config)
    (acc : List String) :
    data.foldl
        (fun missing kv =>
          if kv.1 = "number_inputs" then missing
          else if m.recognized kv.1 then missing
          else missing ++ [kv.1]) acc =
      acc ++ (data.filter
          (fun kv => !(kv.1 == "number_inputs") && !(m.recognized kv.1))).map
        Prod.fst := by
  induction data generalizing acc with
  | nil => simp
  | cons kv rest ih =>
    simp only [List.foldl_cons, List.filter_cons]
    by_cases h1 : kv.1 = "number_inputs"
    · simp [h1, ih]
    · by_cases h2 : m.recognized kv.1
      · simp [h1, h2, ih]
      · simp [h1, h2, ih]

/-- C8 counterexample: with an empty module list and neither a
file-based nor an inline parameter source, `load_config` returns
normally instead of raising — the claimed "if and only if" fails. -/
theorem claim_C8_counterexample :
    Permian.load_config [] none none = .ok [] ∧
      ∀ msg, Permian.load_config [] none none ≠ Except.error msg :=
  ⟨rfl, fun _ h => Except.noConfusion h⟩

/-- C8 (amended): `load_config` raises the missing-source error
exactly when neither `file_names` nor `module_data` is supplied and
the module list is nonempty (with an empty module list the loop body
never runs and no error is raised); when a source of matching length
is supplied it returns normally, with each module's unrecognized keys
(other than `number_inputs`) collected into a list and silently
skipped, never failing the load. -/
theorem claim_C8_load_config (modules : List Permian.PySAMModule)
    (fs ds : List Permian.Config) :
    (modules ≠ [] →
      Permian.load_config modules none none =
        .error "Either file_names or module_data must be assigned.")
    ∧ (modules = [] → Permian.load_config modules none none = .ok [])
    ∧ (fs.length = modules.length →
        Permian.load_config modules (some fs) none =
          .ok (List.zipWith Permian.apply_config modules fs))
    ∧ (ds.length = modules.length →
        Permian.load_config modules none (some ds) =
          .ok (List.zipWith Permian.apply_config modules ds))
    ∧ (∀ m : Permian.PySAMModule, ∀ data : Permian.Config,
        Permian.apply_config m data =
          (data.filter
              (fun kv => !(kv.1 == "number_inputs") && !(m.recognized kv.1))).map
            Prod.fst) := by
  refine ⟨?_, ?_, ?_, ?_, ?_⟩
  · intro h
    cases modules with
    | nil => exact absurd rfl h
    | cons m rest => rfl
  · intro h
    subst h
    rfl
  · intro h
    cases modules with
    | nil => rfl
    | cons m rest => simp [Permian.load_config, h]
  · intro h
    cases modules with
    | nil => rfl
    | cons m rest => simp [Permian.load_config, h]
  · intro m data
    simpa using apply_config_foldl m data []

/-- C8 witness: concrete runs of the three load paths — missing
source raising on a nonempty module list, empty module list returning,
and a supplied source collecting the unrecognized key while loading. -/
theorem claim_C8_load_config_case :
    (Permian.load_config [⟨fun k => k == "tshours"⟩] none none =
        .error "Either file_names or module_data must be assigned.")
    ∧ (Permian.load_config [] none none = .ok [])
    ∧ (Permian.load_config [⟨fun k => k == "tshours"⟩]
          (some [[("tshours", 6), ("bad_key", 2), ("number_inputs", 3)]]) none =
        .ok (List.zipWith Permian.apply_config [⟨fun k => k == "tshours"⟩]
          [[("tshours", 6), ("bad_key", 2), ("number_inputs", 3)]]))
    ∧ (Permian.load_config [⟨fun k => k == "tshours"⟩] none
          (some [[("q_pb_design", 25)]]) =
        .ok (List.zipWith Permian.apply_config [⟨fun k => k == "tshours"⟩]
          [[("q_pb_design", 25)]])) :=
  ⟨(claim_C8_load_config [⟨fun k => k == "tshours"⟩] [] []).1
      (List.cons_ne_nil _ _),
   (claim_C8_load_config [] [] []).2.1 rfl,
   (claim_C8_load_config [⟨fun k => k == "tshours"⟩]
      [[("tshours", 6), ("bad_key", 2), ("number_inputs", 3)]] []).2.2.1 rfl,
   (claim_C8_load_config [⟨fun k => k == "tshours"⟩] []
      [[("q_pb_design", 25)]]).2.2.2.1 rfl⟩

/-- C10: the wind costing block constrains the unit's capital cost to
equal exactly zero — the expression it equates against is the constant
0 — for every valuation of the cost parameters; only the fixed
operating cost depends on the system capacity, as the product of the
per-kW fixed operating cost and the capacity. -/
theorem claim_C10_wind_capital_zero (p : Wind.WindCostParams)
    (system_capacity_kw : ℚ) (b : Wind.WindCosting)
    (hc : Wind.cost_wind_constraints p system_capacity_kw b) :
    b.capital_cost = 0 ∧
      b.fixed_operating_cost =
        p.fixed_operating_by_capacity * system_capacity_kw :=
  ⟨hc.1, hc.2⟩

/-- C10 witness: the default SAM parameters with a 100 kW system give
a zero capital cost and a 4000 $/yr fixed operating cost. -/
theorem claim_C10_wind_capital_zero_case :
    (⟨0, 4000, 0, 0, 0, 0⟩ : Wind.WindCosting).capital_cost = 0 ∧
      (⟨0, 4000, 0, 0, 0, 0⟩ : Wind.WindCosting).fixed_operating_cost =
        Wind.wind_defaults.fixed_operating_by_capacity * 100 :=
  claim_C10_wind_capital_zero Wind.wind_defaults 100 ⟨0, 4000, 0, 0, 0, 0⟩
    ⟨rfl, by norm_num [Wind.wind_defaults]⟩
